/-
Verification of the generic SQL repository sample (go-sql-generic-sample).

The development shallowly embeds the user repository adapter
(internal/user/repository/adapter/adapter.go), the paging/offset logic used by
the HTTP handler (internal/user/handler/handler.go), and the statement-building
helpers the adapter delegates to.  Database execution is modelled as an oracle
(`Db`): a record of functions giving, for each submitted statement, either a
driver error or a result.  Every adapter operation additionally returns the
trace of SQL statements it submitted, so "no SQL is executed" and "the count
query runs exactly once" become statements about that trace.
-/
import Mathlib

set_option autoImplicit false

namespace GoSql

/-- SQL argument values bound to placeholders. -/
inductive Value where
  | str : String → Value
  | int : Int → Value
  | null : Value
  deriving DecidableEq, Repr

/-- One field descriptor of the record metadata: Go struct field name, database
column name, json key, and the primary-key marker (from the gorm tags). -/
structure FieldMeta where
  fieldName : String
  columnName : String
  jsonKey : String
  isPrimaryKey : Bool
  deriving DecidableEq, Repr

/-- Columns of the primary key, in metadata-declared order. -/
def primaryKeyColumns (md : List FieldMeta) : List String :=
  (md.filter (fun f => f.isPrimaryKey)).map (fun f => f.columnName)

/-- Modelled from the spec: the `model.User` record type is not under src/.
Field descriptors follow section 3/4.1 of the spec and the README json shape:
`id` is the single primary key; the other fields are username, email, phone,
dateOfBirth, with canonical snake-case column names. -/
def userMetadata : List FieldMeta :=
  [ ⟨"Id", "id", "id", true⟩,
    ⟨"Username", "username", "username", false⟩,
    ⟨"Email", "email", "email", false⟩,
    ⟨"Phone", "phone", "phone", false⟩,
    ⟨"DateOfBirth", "date_of_birth", "dateOfBirth", false⟩ ]

/-- Modelled from the spec: the composite-key record of the README's
`go-sql-composite-key` sample (`company_users` with primary keys
`company_id`, `user_id`), used to exercise the builders on a composite key. -/
def companyUserMetadata : List FieldMeta :=
  [ ⟨"CompanyId", "company_id", "companyId", true⟩,
    ⟨"UserId", "user_id", "userId", true⟩ ]

/-- The json-key-to-column map derived from the metadata (`r.JsonColumnMap`). -/
def userJsonColumnMap : List (String × String) :=
  userMetadata.map (fun f => (f.jsonKey, f.columnName))

/-- The primary-key column list derived from the metadata (`r.Keys`). -/
def userKeys : List String :=
  primaryKeyColumns userMetadata

/-- The `model.User` record (fields per the README json shape; the date is kept
as its string rendering, which is all the SQL layer sees). -/
structure User where
  id : String
  username : String
  email : String
  phone : String
  dateOfBirth : String
  deriving DecidableEq, Repr

/-- A user rendered as a column-to-value row, in metadata order. -/
def userRow (u : User) : List (String × Value) :=
  [ ("id", Value.str u.id),
    ("username", Value.str u.username),
    ("email", Value.str u.email),
    ("phone", Value.str u.phone),
    ("date_of_birth", Value.str u.dateOfBirth) ]

/-- The search filter (`model.UserFilter`): paging fields plus the README's
domain criteria.  Only `page` and `limit` matter to the embedded operations;
the criteria are carried opaquely into the query builder. -/
structure UserFilter where
  page : Int
  limit : Int
  email : Option String
  dateOfBirthMin : Option String
  dateOfBirthMax : Option String
  deriving DecidableEq, Repr

/-- The numbered (postgres-style) placeholder builder, one of the supported
dialect binders: index `i` becomes `$i`. -/
def dollarParam (i : Nat) : String :=
  "$" ++ toString i

/-- Comma-separated column list (`r.Fields` is built this way). -/
def joinComma : List String → String
  | [] => ""
  | [c] => c
  | c :: c2 :: cs => c ++ ", " ++ joinComma (c2 :: cs)

/-- A `col = placeholder` SET list, comma-separated, numbering placeholders
from `i`. -/
def setComma : List String → Nat → (Nat → String) → String
  | [], _, _ => ""
  | [c], i, bp => c ++ " = " ++ bp i
  | c :: c2 :: cs, i, bp => c ++ " = " ++ bp i ++ ", " ++ setComma (c2 :: cs) (i + 1) bp

/-- A `col = placeholder` WHERE conjunction, AND-separated, numbering
placeholders from `i`. -/
def whereAnd : List String → Nat → (Nat → String) → String
  | [], _, _ => ""
  | [c], i, bp => c ++ " = " ++ bp i
  | c :: c2 :: cs, i, bp => c ++ " = " ++ bp i ++ " and " ++ whereAnd (c2 :: cs) (i + 1) bp

/-- The suffix of a character list after the first occurrence of `key`
(empty when `key` does not occur). -/
def listAfterKey (key : List Char) : List Char → List Char
  | [] => []
  | c :: cs =>
    if key.isPrefixOf (c :: cs) then (c :: cs).drop key.length
    else listAfterKey key cs

/-- The text after the first ` where ` of a query (used to inspect the WHERE
clause of a built statement independently of how it was assembled). -/
def whereClauseOf (q : String) : String :=
  String.mk (listAfterKey " where ".data q.data)

/-- Modelled from the spec: `sql.BuildToInsert` (core-go/sql, not under src/).
Emits every column of the row (the user type flags none auto-generated) with
one placeholder per column, arguments in column order. -/
def BuildToInsert (table : String) (row : List (String × Value))
    (bp : Nat → String) : String × List Value :=
  let cols := row.map (fun cv => cv.1)
  let params := (List.range cols.length).map (fun i => bp (i + 1))
  ("insert into " ++ table ++ " (" ++ joinComma cols ++ ") values ("
      ++ joinComma params ++ ")",
    row.map (fun cv => cv.2))

/-- Modelled from the spec: `sql.BuildToUpdate` (core-go/sql, not under src/).
SET list = all non-key columns of the row; WHERE = AND of the primary-key
columns in metadata-declared order; arguments are the SET values followed by
the key values. -/
def BuildToUpdate (table : String) (row : List (String × Value))
    (md : List FieldMeta) (bp : Nat → String) : String × List Value :=
  let keys := primaryKeyColumns md
  let sets := row.filter (fun cv => ¬ keys.contains cv.1)
  let keyVals := keys.filterMap
    (fun k => (row.find? (fun cv => cv.1 == k)).map (fun cv => cv.2))
  (("update " ++ table ++ " set " ++ setComma (sets.map (fun cv => cv.1)) 1 bp)
      ++ (" where " ++ whereAnd keys (sets.length + 1) bp),
    sets.map (fun cv => cv.2) ++ keyVals)

/-- Modelled from the spec: `sql.BuildToPatch` (core-go/sql, not under src/).
SET list = the present non-key columns of the column map; WHERE = AND of the
given key columns in the given order, their values looked up in the column
map; arguments are the SET values followed by the key values. -/
def BuildToPatch (table : String) (colMap : List (String × Value))
    (keys : List String) (bp : Nat → String) : String × List Value :=
  let sets := colMap.filter (fun cv => ¬ keys.contains cv.1)
  let keyVals := keys.filterMap
    (fun k => (colMap.find? (fun cv => cv.1 == k)).map (fun cv => cv.2))
  (("update " ++ table ++ " set " ++ setComma (sets.map (fun cv => cv.1)) 1 bp)
      ++ (" where " ++ whereAnd keys (sets.length + 1) bp),
    sets.map (fun cv => cv.2) ++ keyVals)

/-- Modelled from the spec: `sql.JSONToColumns` (core-go/sql, not under src/).
Converts a json-keyed payload to a column-keyed map through the
json-key-to-column map.  The adapter call site returns a single value, so no
error can be reported; a key with no mapped column is dropped (the lenient
mode the spec mentions as the alternative to fail-closed). -/
def JSONToColumns (payload : List (String × Value))
    (jcm : List (String × String)) : List (String × Value) :=
  payload.filterMap
    (fun kv => (jcm.find? (fun p => p.1 == kv.1)).map (fun p => (p.2, kv.2)))

/-- Modelled from the spec: `sql.BuildPagingQuery` (core-go/sql, not under
src/).  Appends the dialect row-window clause to the base query. -/
def BuildPagingQuery (q : String) (limit offset : Int) : String :=
  q ++ " limit " ++ toString limit ++ " offset " ++ toString offset

/-- Modelled from the spec: `sql.BuildCountQuery` (core-go/sql, not under
src/).  Wraps the base query to count its matching rows. -/
def BuildCountQuery (q : String) : String :=
  "select count(*) from (" ++ q ++ ") as cnt"

/-- Modelled from the spec: `search.GetOffset` (core-go/search, not under
src/), the Paging Engine offset rule: `offset = limit * (max(page,1) - 1)`. -/
def GetOffset (limit page : Int) : Int :=
  limit * (max page 1 - 1)

/-- One SQL statement submitted to the database, tagged by the adapter call
site that issued it: a write (`ExecContext`), the point lookup, the count
query (`QueryRowContext`), the paged query, or the select-all query. -/
inductive SqlCall where
  | execQ : String → SqlCall
  | pointQ : String → SqlCall
  | countQ : String → SqlCall
  | pagedQ : String → SqlCall
  | allQ : String → SqlCall
  deriving DecidableEq, Repr

/-- Whether a trace entry is the count query. -/
def SqlCall.isCountQ : SqlCall → Bool
  | SqlCall.countQ _ => true
  | _ => false

/-- Whether a trace entry is the paged query. -/
def SqlCall.isPagedQ : SqlCall → Bool
  | SqlCall.pagedQ _ => true
  | _ => false

/-- The errors an adapter operation can return.  `driver e` is the engine or
driver error value propagated unchanged; `constraintError` and
`validationError` are the classified error kinds of the spec taxonomy, present
in the codomain so that claims about classification can be stated. -/
inductive RepoError where
  | driver : String → RepoError
  | constraintError : String → RepoError
  | validationError : String → RepoError
  deriving DecidableEq, Repr

/-- Whether an optional returned error is a classified `ConstraintError`. -/
def isConstraintErr : Option RepoError → Bool
  | some (RepoError.constraintError _) => true
  | _ => false

/-- Whether an optional returned error is a classified `ValidationError`. -/
def isValidationErr : Option RepoError → Bool
  | some (RepoError.validationError _) => true
  | _ => false

/-- The database oracle: for each submitted statement and argument list, the
driver either fails with an error or yields a result — an affected-row count
for writes, a row list for row queries, a total for the count query. -/
structure Db where
  exec : String → List Value → Except String Int
  queryRows : String → List Value → Except String (List User)
  queryCount : String → List Value → Except String Int

/-- Result of a write operation: the returned `(rowsAffected, error)` pair
plus the trace of statements submitted. -/
structure WriteOut where
  rowsAffected : Int
  err : Option RepoError
  trace : List SqlCall
  deriving DecidableEq, Repr

/-- Result of `Load`: the returned `(record pointer, error)` pair plus the
trace of statements submitted. -/
structure LoadOut where
  user : Option User
  err : Option RepoError
  trace : List SqlCall
  deriving DecidableEq, Repr

/-- Result of `Search`: the returned `(records, total, error)` triple plus the
trace of statements submitted. -/
structure SearchOut where
  users : List User
  total : Int
  err : Option RepoError
  trace : List SqlCall
  deriving DecidableEq, Repr

/-- The shared write path of the adapter (`tx.ExecContext` followed by the
`if err != nil { return -1, err }` / `return res.RowsAffected()` pattern of
Create, Update, Patch and Delete). -/
def execWrite (db : Db) (q : String) (args : List Value) : WriteOut :=
  match db.exec q args with
  | Except.error e => ⟨-1, some (RepoError.driver e), [SqlCall.execQ q]⟩
  | Except.ok n => ⟨n, none, [SqlCall.execQ q]⟩

namespace UserAdapter

/-- `UserAdapter.Create`: builds the insert for the user row and executes it. -/
def Create (db : Db) (bp : Nat → String) (u : User) : WriteOut :=
  let qa := BuildToInsert "users" (userRow u) bp
  execWrite db qa.1 qa.2

/-- `UserAdapter.Update`: builds the full update for the user row and executes
it. -/
def Update (db : Db) (bp : Nat → String) (u : User) : WriteOut :=
  let qa := BuildToUpdate "users" (userRow u) userMetadata bp
  execWrite db qa.1 qa.2

/-- `UserAdapter.Patch`: converts the json payload to columns, builds the
patch statement against the key columns, and executes it (unconditionally —
the adapter has no empty-payload or unknown-key check). -/
def Patch (db : Db) (bp : Nat → String) (payload : List (String × Value)) :
    WriteOut :=
  let colMap := JSONToColumns payload userJsonColumnMap
  let qa := BuildToPatch "users" colMap userKeys bp
  execWrite db qa.1 qa.2

/-- The delete statement of `UserAdapter.Delete`, built by string formatting
in the adapter itself. -/
def deleteQuery (bp : Nat → String) : String :=
  "delete from users where id = " ++ bp 1

/-- `UserAdapter.Delete`: executes the delete statement with the id as its
only argument. -/
def Delete (db : Db) (bp : Nat → String) (id : String) : WriteOut :=
  execWrite db (deleteQuery bp) [Value.str id]

/-- The point-lookup query of `UserAdapter.Load` (`r.Fields` is the
comma-joined column list of the metadata). -/
def loadQuery (bp : Nat → String) : String :=
  "select " ++ joinComma (userMetadata.map (fun f => f.columnName))
    ++ " from users where id = " ++ bp 1 ++ " limit 1"

/-- `UserAdapter.Load`: runs the point lookup; a driver error propagates, a
non-empty row list yields its first row, and an empty row list yields a nil
record pointer with a nil error. -/
def Load (db : Db) (bp : Nat → String) (id : String) : LoadOut :=
  match db.queryRows (loadQuery bp) [Value.str id] with
  | Except.error e => ⟨none, some (RepoError.driver e), [SqlCall.pointQ (loadQuery bp)]⟩
  | Except.ok users =>
    match users with
    | [] => ⟨none, none, [SqlCall.pointQ (loadQuery bp)]⟩
    | u :: _ => ⟨some u, none, [SqlCall.pointQ (loadQuery bp)]⟩

/-- `UserAdapter.Search`: short-circuits when `limit <= 0`; otherwise builds
the base query from the filter, runs the count query, and runs the paged
query only when the scanned total is nonzero. -/
def Search (db : Db) (buildQuery : UserFilter → String × List Value)
    (filter : UserFilter) (limit offset : Int) : SearchOut :=
  if limit ≤ 0 then ⟨[], 0, none, []⟩
  else
    let qp := buildQuery filter
    let pagingQuery := BuildPagingQuery qp.1 limit offset
    let countQuery := BuildCountQuery qp.1
    match db.queryCount countQuery qp.2 with
    | Except.error e =>
      ⟨[], 0, some (RepoError.driver e), [SqlCall.countQ countQuery]⟩
    | Except.ok total =>
      if total = 0 then ⟨[], total, none, [SqlCall.countQ countQuery]⟩
      else
        match db.queryRows pagingQuery qp.2 with
        | Except.error e =>
          ⟨[], total, some (RepoError.driver e),
            [SqlCall.countQ countQuery, SqlCall.pagedQ pagingQuery]⟩
        | Except.ok users =>
          ⟨users, total, none,
            [SqlCall.countQ countQuery, SqlCall.pagedQ pagingQuery]⟩

end UserAdapter

/-- The offset the HTTP handler passes to `Search`
(`search.GetOffset(filter.Limit, filter.Page)` in handler.go). -/
def handlerSearchOffset (f : UserFilter) : Int :=
  GetOffset f.limit f.page

/-- A concrete user row taken from the README examples. -/
def sampleUser : User :=
  ⟨"ironman", "tony.stark", "tony.stark@gmail.com", "0987654321", "1963-03-24"⟩

/-- A concrete composite-key row for the `company_users` sample. -/
def companyUserRow : List (String × Value) :=
  [("company_id", Value.str "acme"), ("user_id", Value.str "wolverine")]

/-- A concrete filter taken from the README search example. -/
def sampleFilter : UserFilter :=
  ⟨1, 20, some "tony", some "1953-11-16", some "1976-11-16"⟩

/-- A concrete base-query builder standing in for the compiled filter query. -/
def sampleBuildQuery (f : UserFilter) : String × List Value :=
  ("select id, username, email, phone, date_of_birth from users where email like $1",
    [Value.str (f.email.getD "" ++ "%")])

/-- An oracle whose statements all succeed affecting one row. -/
def dbOkOne : Db :=
  ⟨fun _ _ => Except.ok 1, fun _ _ => Except.ok [], fun _ _ => Except.ok 1⟩

/-- An oracle whose statements all succeed but match no row: writes affect
zero rows, row queries return no rows, counts return zero. -/
def dbOkZero : Db :=
  ⟨fun _ _ => Except.ok 0, fun _ _ => Except.ok [], fun _ _ => Except.ok 0⟩

/-- The driver message of a primary-key constraint violation. -/
def dupKeyMsg : String :=
  "pq: duplicate key value violates unique constraint users_pkey"

/-- An oracle whose writes are rejected by the engine with a duplicate-key
constraint violation. -/
def dbDupKey : Db :=
  ⟨fun _ _ => Except.error dupKeyMsg, fun _ _ => Except.ok [], fun _ _ => Except.ok 0⟩

/-- An oracle whose writes fail with an infrastructure error. -/
def dbBoom : Db :=
  ⟨fun _ _ => Except.error "connection reset by peer",
    fun _ _ => Except.error "connection reset by peer",
    fun _ _ => Except.error "connection reset by peer"⟩

/-- The trace of every write path is the single executed statement. -/
theorem execWrite_trace (db : Db) (q : String) (a : List Value) :
    (execWrite db q a).trace = [SqlCall.execQ q] := by
  unfold execWrite
  cases db.exec q a <;> rfl

/-- The write path never returns a classified validation error: its error is
either absent or the propagated driver error. -/
theorem execWrite_err_not_validation (db : Db) (q : String) (a : List Value) :
    isValidationErr (execWrite db q a).err = false := by
  unfold execWrite
  cases db.exec q a <;> rfl

/-- C1: for every oracle, filter and offset, calling `Search` with
`limit <= 0` executes no SQL (the trace is empty, so neither the count query
nor the paged query runs) and returns an empty record sequence, total `0`,
and no error. -/
theorem search_limit_nonpos_short_circuits (db : Db)
    (bq : UserFilter → String × List Value) (f : UserFilter)
    (limit offset : Int) (h : limit ≤ 0) :
    UserAdapter.Search db bq f limit offset = ⟨[], 0, none, []⟩ := by
  unfold UserAdapter.Search
  rw [if_pos h]

/-- C1 witness: at `limit = 0` (and also at `limit = -5`) the search returns
an empty result with total `0`, no error, and an empty statement trace. -/
theorem search_limit_nonpos_short_circuits_witness :
    UserAdapter.Search dbOkOne sampleBuildQuery sampleFilter 0 0 = ⟨[], 0, none, []⟩
    ∧ UserAdapter.Search dbOkOne sampleBuildQuery sampleFilter (-5) 0 = ⟨[], 0, none, []⟩ :=
  ⟨search_limit_nonpos_short_circuits dbOkOne sampleBuildQuery sampleFilter 0 0 (by decide),
    search_limit_nonpos_short_circuits dbOkOne sampleBuildQuery sampleFilter (-5) 0 (by decide)⟩

/-- C9: for every oracle under which the point lookup succeeds with no
matching row, `Load` returns a nil record pointer together with a nil
error. -/
theorem load_absent_returns_nil_nil (db : Db) (bp : Nat → String) (id : String)
    (h : db.queryRows (UserAdapter.loadQuery bp) [Value.str id] = Except.ok []) :
    (UserAdapter.Load db bp id).user = none
    ∧ (UserAdapter.Load db bp id).err = none := by
  unfold UserAdapter.Load
  rw [h]
  exact ⟨rfl, rfl⟩

/-- C9 witness: loading `"wolverine"` against an oracle that finds no row
yields a nil record and a nil error. -/
theorem load_absent_returns_nil_nil_witness :
    (UserAdapter.Load dbOkZero dollarParam "wolverine").user = none
    ∧ (UserAdapter.Load dbOkZero dollarParam "wolverine").err = none :=
  load_absent_returns_nil_nil dbOkZero dollarParam "wolverine" rfl

/-- C8: the offset the handler computes for a search equals
`limit * (max(page,1) - 1)`; in particular `limit=20, page=1` yields offset
`0` and `limit=20, page=3` yields offset `40`. -/
theorem handler_offset_formula :
    (∀ f : UserFilter, handlerSearchOffset f = f.limit * (max f.page 1 - 1))
    ∧ GetOffset 20 1 = 0
    ∧ GetOffset 20 3 = 40 :=
  ⟨fun _ => rfl, by decide, by decide⟩

/-- C3: for every `Search` call with `limit > 0`, the count query is executed
exactly once, and when the count returns total `0` the paged query is not
executed and `Search` returns an empty record sequence with total `0` and no
error (its trace is the count query alone). -/
theorem search_count_once_and_zero_total_skips_paged (db : Db)
    (bq : UserFilter → String × List Value) (f : UserFilter)
    (limit offset : Int) (h : 0 < limit) :
    ((UserAdapter.Search db bq f limit offset).trace.filter SqlCall.isCountQ).length = 1
    ∧ (db.queryCount (BuildCountQuery (bq f).1) (bq f).2 = Except.ok 0 →
        UserAdapter.Search db bq f limit offset
          = ⟨[], 0, none, [SqlCall.countQ (BuildCountQuery (bq f).1)]⟩) := by
  have hn : ¬ limit ≤ 0 := not_le.mpr h
  unfold UserAdapter.Search
  rw [if_neg hn]
  rcases hq : db.queryCount (BuildCountQuery (bq f).1) (bq f).2 with e | total
  · simp [hq, SqlCall.isCountQ]
  · by_cases h0 : total = 0
    · subst h0
      simp [hq, SqlCall.isCountQ]
    · rcases hr : db.queryRows (BuildPagingQuery (bq f).1 limit offset) (bq f).2
        with e2 | users
      · simp [hq, h0, hr, SqlCall.isCountQ, SqlCall.isPagedQ]
      · simp [hq, h0, hr, SqlCall.isCountQ, SqlCall.isPagedQ]

/-- C3 witness: with `limit = 20` against an oracle whose count is `0`, the
trace holds the count query exactly once, and the search result is empty with
total `0`, no error, and no paged query in the trace. -/
theorem search_count_once_and_zero_total_skips_paged_witness :
    ((UserAdapter.Search dbOkZero sampleBuildQuery sampleFilter 20 0).trace.filter
        SqlCall.isCountQ).length = 1
    ∧ (dbOkZero.queryCount (BuildCountQuery (sampleBuildQuery sampleFilter).1)
          (sampleBuildQuery sampleFilter).2 = Except.ok 0 →
        UserAdapter.Search dbOkZero sampleBuildQuery sampleFilter 20 0
          = ⟨[], 0, none,
              [SqlCall.countQ (BuildCountQuery (sampleBuildQuery sampleFilter).1)]⟩) :=
  search_count_once_and_zero_total_skips_paged dbOkZero sampleBuildQuery
    sampleFilter 20 0 (by decide)

/-- C6: for every oracle under which statement execution succeeds but matches
no row (zero rows affected), `Update`, `Patch` and `Delete` each return
`rowsAffected = 0` with a nil error: not-found is signalled by the zero row
count, never by an error value. -/
theorem zero_rows_affected_is_not_an_error (db : Db) (bp : Nat → String)
    (u : User) (payload : List (String × Value)) (id : String)
    (h : ∀ q a, db.exec q a = Except.ok 0) :
    (UserAdapter.Update db bp u).rowsAffected = 0
    ∧ (UserAdapter.Update db bp u).err = none
    ∧ (UserAdapter.Patch db bp payload).rowsAffected = 0
    ∧ (UserAdapter.Patch db bp payload).err = none
    ∧ (UserAdapter.Delete db bp id).rowsAffected = 0
    ∧ (UserAdapter.Delete db bp id).err = none := by
  unfold UserAdapter.Update UserAdapter.Patch UserAdapter.Delete execWrite
  simp [h]

/-- C6 witness: against an oracle whose writes match no row, updating,
patching and deleting concrete inputs all return `(0, nil)`. -/
theorem zero_rows_affected_is_not_an_error_witness :
    (UserAdapter.Update dbOkZero dollarParam sampleUser).rowsAffected = 0
    ∧ (UserAdapter.Update dbOkZero dollarParam sampleUser).err = none
    ∧ (UserAdapter.Patch dbOkZero dollarParam
        [("email", Value.str "t@s.io"), ("id", Value.str "ironman")]).rowsAffected = 0
    ∧ (UserAdapter.Patch dbOkZero dollarParam
        [("email", Value.str "t@s.io"), ("id", Value.str "ironman")]).err = none
    ∧ (UserAdapter.Delete dbOkZero dollarParam "ironman").rowsAffected = 0
    ∧ (UserAdapter.Delete dbOkZero dollarParam "ironman").err = none :=
  zero_rows_affected_is_not_an_error dbOkZero dollarParam sampleUser
    [("email", Value.str "t@s.io"), ("id", Value.str "ironman")] "ironman"
    (fun _ _ => rfl)

/-- C10: for every oracle under which statement execution fails, `Create`,
`Update`, `Patch` and `Delete` each return `rowsAffected = -1` together with
the non-nil propagated error. -/
theorem exec_failure_returns_minus_one (db : Db) (bp : Nat → String)
    (u v : User) (payload : List (String × Value)) (id : String) (e : String)
    (h : ∀ q a, db.exec q a = Except.error e) :
    (UserAdapter.Create db bp u).rowsAffected = -1
    ∧ (UserAdapter.Create db bp u).err = some (RepoError.driver e)
    ∧ (UserAdapter.Update db bp v).rowsAffected = -1
    ∧ (UserAdapter.Update db bp v).err = some (RepoError.driver e)
    ∧ (UserAdapter.Patch db bp payload).rowsAffected = -1
    ∧ (UserAdapter.Patch db bp payload).err = some (RepoError.driver e)
    ∧ (UserAdapter.Delete db bp id).rowsAffected = -1
    ∧ (UserAdapter.Delete db bp id).err = some (RepoError.driver e) := by
  unfold UserAdapter.Create UserAdapter.Update UserAdapter.Patch
    UserAdapter.Delete execWrite
  simp [h]

/-- C10 witness: against an oracle whose statements fail with a connection
error, each of the four write operations on concrete inputs returns `-1`
together with that error. -/
theorem exec_failure_returns_minus_one_witness :
    (UserAdapter.Create dbBoom dollarParam sampleUser).rowsAffected = -1
    ∧ (UserAdapter.Create dbBoom dollarParam sampleUser).err
        = some (RepoError.driver "connection reset by peer")
    ∧ (UserAdapter.Update dbBoom dollarParam sampleUser).rowsAffected = -1
    ∧ (UserAdapter.Update dbBoom dollarParam sampleUser).err
        = some (RepoError.driver "connection reset by peer")
    ∧ (UserAdapter.Patch dbBoom dollarParam
        [("id", Value.str "ironman")]).rowsAffected = -1
    ∧ (UserAdapter.Patch dbBoom dollarParam [("id", Value.str "ironman")]).err
        = some (RepoError.driver "connection reset by peer")
    ∧ (UserAdapter.Delete dbBoom dollarParam "ironman").rowsAffected = -1
    ∧ (UserAdapter.Delete dbBoom dollarParam "ironman").err
        = some (RepoError.driver "connection reset by peer") :=
  exec_failure_returns_minus_one dbBoom dollarParam sampleUser sampleUser
    [("id", Value.str "ironman")] "ironman" "connection reset by peer"
    (fun _ _ => rfl)

/-- C7 counterexample: when the engine rejects a create with a duplicate-key
constraint violation, the returned error is the raw driver error, not a value
classified as `ConstraintError`, and the row count is the sentinel `-1` — so
the claim that the failure comes back classified as a `ConstraintError` is
false at this input. -/
theorem constraint_violation_not_classified_counterexample :
    (UserAdapter.Create dbDupKey dollarParam sampleUser).err
        = some (RepoError.driver dupKeyMsg)
    ∧ isConstraintErr (UserAdapter.Create dbDupKey dollarParam sampleUser).err = false
    ∧ (UserAdapter.Create dbDupKey dollarParam sampleUser).rowsAffected = -1 := by
  refine ⟨rfl, rfl, rfl⟩

/-- C7 amended: when the engine rejects a write, the operation returns the
engine's failure as an error value — unclassified, exactly the driver error —
accompanied by the sentinel row count `-1`; no `ConstraintError`
classification happens in this layer, and the failure is not encoded as a
row-count alone (the error value is always non-nil). -/
theorem constraint_violation_propagated_unclassified (db : Db)
    (bp : Nat → String) (u : User) (e : String)
    (h : ∀ q a, db.exec q a = Except.error e) :
    (UserAdapter.Create db bp u).err = some (RepoError.driver e)
    ∧ isConstraintErr (UserAdapter.Create db bp u).err = false
    ∧ (UserAdapter.Create db bp u).rowsAffected = -1 := by
  unfold UserAdapter.Create execWrite
  simp [h, isConstraintErr]

/-- C7 amended witness: a duplicate-key rejection of a concrete create comes
back as the raw driver error with row count `-1` and no classification. -/
theorem constraint_violation_propagated_unclassified_witness :
    (UserAdapter.Create dbDupKey dollarParam sampleUser).err
        = some (RepoError.driver dupKeyMsg)
    ∧ isConstraintErr (UserAdapter.Create dbDupKey dollarParam sampleUser).err = false
    ∧ (UserAdapter.Create dbDupKey dollarParam sampleUser).rowsAffected = -1 :=
  constraint_violation_propagated_unclassified dbDupKey dollarParam sampleUser
    dupKeyMsg (fun _ _ => rfl)

/-- C4 counterexample: calling `Patch` with an empty payload against an
oracle that matches no row does return `0` rows affected, but its trace holds
one executed statement (the degenerate `update users set  where id = $1`), so
the claim that zero SQL statements are issued is false at this input. -/
theorem empty_patch_counterexample :
    UserAdapter.Patch dbOkZero dollarParam []
      = ⟨0, none, [SqlCall.execQ "update users set  where id = $1"]⟩
    ∧ (UserAdapter.Patch dbOkZero dollarParam []).trace.length = 1 := by
  refine ⟨rfl, rfl⟩

/-- C4 amended: calling `Patch` with an empty payload is not short-circuited:
for every oracle the adapter still builds the patch statement from the empty
column map and submits it, so exactly one SQL statement is issued; the
returned row count and error are the engine's outcome for that statement, not
a guaranteed `0`. -/
theorem empty_patch_still_executes (db : Db) (bp : Nat → String) :
    (UserAdapter.Patch db bp []).trace.length = 1 := by
  unfold UserAdapter.Patch
  rw [execWrite_trace]
  rfl

/-- C5 counterexample: patching with the payload `{"unknownField": 1}` issues
one SQL statement (not zero) and returns no `ValidationError` (here the
engine accepts the degenerate statement and the error is nil), so the claim
is false at this input. -/
theorem patch_unknown_key_counterexample :
    (UserAdapter.Patch dbOkOne dollarParam [("unknownField", Value.int 1)]).trace.length = 1
    ∧ isValidationErr
        (UserAdapter.Patch dbOkOne dollarParam [("unknownField", Value.int 1)]).err = false
    ∧ (UserAdapter.Patch dbOkOne dollarParam [("unknownField", Value.int 1)]).err = none := by
  refine ⟨rfl, rfl, rfl⟩

/-- C5 amended: a payload key that maps to no declared column is silently
dropped by the json-to-column mapping (the call path has no error return);
for every oracle and payload, `Patch` issues exactly one SQL statement and
never returns a `ValidationError` — its error is nil or the propagated driver
error. -/
theorem patch_never_returns_validation_error (db : Db) (bp : Nat → String)
    (payload : List (String × Value)) :
    (UserAdapter.Patch db bp payload).trace.length = 1
    ∧ isValidationErr (UserAdapter.Patch db bp payload).err = false := by
  constructor
  · unfold UserAdapter.Patch
    rw [execWrite_trace]
    rfl
  · unfold UserAdapter.Patch
    exact execWrite_err_not_validation db _ _

/-- C2: every update, patch and delete statement the program builds has a
WHERE clause that is exactly the primary-key columns, AND-ed, in
metadata-declared order: for every metadata and row the update builder's
query ends in ` where ` followed by the AND-conjunction of the metadata's
primary-key columns, the patch builder likewise for its key-column list
(instantiated by the adapter with the metadata's primary keys), the adapter's
delete statement's WHERE clause is the conjunction of the user metadata's
primary keys, and on the concrete single-key and composite-key records the
extracted WHERE clauses list exactly the declared key columns in order. -/
theorem mutating_where_clause_is_primary_keys :
    (∀ (md : List FieldMeta) (row : List (String × Value)) (bp : Nat → String),
      ∃ pre n, (BuildToUpdate "users" row md bp).1
        = pre ++ (" where " ++ whereAnd (primaryKeyColumns md) n bp))
    ∧ (∀ (colMap : List (String × Value)) (keys : List String) (bp : Nat → String),
      ∃ pre n, (BuildToPatch "users" colMap keys bp).1
        = pre ++ (" where " ++ whereAnd keys n bp))
    ∧ userKeys = primaryKeyColumns userMetadata
    ∧ (∀ bp : Nat → String, UserAdapter.deleteQuery bp
        = "delete from users" ++ (" where " ++ whereAnd (primaryKeyColumns userMetadata) 1 bp))
    ∧ whereClauseOf ((BuildToUpdate "users" (userRow sampleUser) userMetadata dollarParam).1)
        = "id = $5"
    ∧ whereClauseOf ((BuildToPatch "users"
          [("email", Value.str "tony@a.io"), ("id", Value.str "ironman")]
          userKeys dollarParam).1)
        = "id = $2"
    ∧ whereClauseOf ((BuildToUpdate "company_users" companyUserRow
          companyUserMetadata dollarParam).1)
        = "company_id = $1 and user_id = $2"
    ∧ primaryKeyColumns companyUserMetadata = ["company_id", "user_id"]
    ∧ primaryKeyColumns userMetadata = ["id"] := by
  refine ⟨fun md row bp => ⟨_, _, rfl⟩, fun colMap keys bp => ⟨_, _, rfl⟩,
    rfl, ?_, by decide, by decide, by decide, by decide, by decide⟩
  intro bp
  show "delete from users where id = " ++ bp 1
      = "delete from users" ++ (" where " ++ ("id = " ++ bp 1))
  rw [← String.append_assoc, ← String.append_assoc]
  rfl

end GoSql
